import Mathlib

/-!
# infantry_shoot: PID controller and CAN motor channel

A shallow embedding of `components/controller/pid.c` and
`application/CAN_receive.c`, followed by the properties checked against it.

Conventions of the embedding

* `fp32` arithmetic is read as exact arithmetic in a linearly ordered ring `α`
  (the rationals and the reals are instances); nothing is said about rounding,
  infinities or NaN.
* A pointer argument that the C code compares with `NULL` is an `Option`.
* Machine integers are `Nat`/`Int`, reduced explicitly where the C code
  converts to a narrower type.
* Constants that come from headers outside the two source files are parameters.
-/

namespace InfantryShoot

/-! ## PID controller (`pid.c`) -/

/-- Modelled from the spec: the declaration of `pid_type_def` lives in `pid.h`,
which is absent; the fields are the ones the spec lists for `PidState` and the
ones `pid.c` accesses. `error[k]` is `errork`, `Dbuf[k]` is `Dbufk`; `mode` is the
stored `uint8_t`. -/
structure pid_type_def (α : Type) where
  mode : Nat
  Kp : α
  Ki : α
  Kd : α
  max_out : α
  max_iout : α
  set : α
  fdb : α
  out : α
  Pout : α
  Iout : α
  Dout : α
  Dbuf0 : α
  Dbuf1 : α
  Dbuf2 : α
  error0 : α
  error1 : α
  error2 : α
deriving DecidableEq, Repr

section pid
variable {α : Type} [LinearOrderedRing α]

/-- The macro `LimitMax(input, max)` of `pid.c`, as the new value of `input`. -/
def LimitMax (input max : α) : α :=
  if input > max then max
  else if input < -max then -max
  else input

/-- The clamp of the specification: `m` if `x > m`, `-m` if `x < -m`, `x` otherwise. -/
def clamp (x m : α) : α :=
  if x > m then m else if x < -m then -m else x

/-- `PID_init` of `pid.c`: `pid` is the target struct (`none` for `NULL`), `PID`
the gain array `{kp, ki, kd}` (`none` for `NULL`). The result is the target after
the call. -/
def PID_init (pid : Option (pid_type_def α)) (mode : Nat) (PID : Option (α × α × α))
    (max_out max_iout : α) : Option (pid_type_def α) :=
  match pid, PID with
  | none, _ => none
  | some p, none => some p
  | some p, some (kp, ki, kd) =>
    some { p with
      mode := mode
      Kp := kp
      Ki := ki
      Kd := kd
      max_out := max_out
      max_iout := max_iout
      Dbuf0 := 0
      Dbuf1 := 0
      Dbuf2 := 0
      error0 := 0
      error1 := 0
      error2 := 0
      Pout := 0
      Iout := 0
      Dout := 0
      out := 0 }

/-- The body of `PID_calc` for a non-null `pid`, statement by statement.
`PID_POSITION` and `PID_DELTA` are the two enumerators of `pid.h`. -/
def PID_calc_body (PID_POSITION PID_DELTA : Nat) (pid : pid_type_def α) (ref set : α) :
    pid_type_def α :=
  let pid := { pid with error2 := pid.error1 }
  let pid := { pid with error1 := pid.error0 }
  let pid := { pid with set := set }
  let pid := { pid with fdb := ref }
  let pid := { pid with error0 := set - ref }
  if pid.mode = PID_POSITION then
    let pid := { pid with Pout := pid.Kp * pid.error0 }
    let pid := { pid with Iout := pid.Iout + pid.Ki * pid.error0 }
    let pid := { pid with Dbuf2 := pid.Dbuf1 }
    let pid := { pid with Dbuf1 := pid.Dbuf0 }
    let pid := { pid with Dbuf0 := pid.error0 - pid.error1 }
    let pid := { pid with Dout := pid.Kd * pid.Dbuf0 }
    let pid := { pid with Iout := LimitMax pid.Iout pid.max_iout }
    let pid := { pid with out := pid.Pout + pid.Iout + pid.Dout }
    { pid with out := LimitMax pid.out pid.max_out }
  else if pid.mode = PID_DELTA then
    let pid := { pid with Pout := pid.Kp * (pid.error0 - pid.error1) }
    let pid := { pid with Iout := pid.Ki * pid.error0 }
    let pid := { pid with Dbuf2 := pid.Dbuf1 }
    let pid := { pid with Dbuf1 := pid.Dbuf0 }
    let pid := { pid with Dbuf0 := pid.error0 - 2 * pid.error1 + pid.error2 }
    let pid := { pid with Dout := pid.Kd * pid.Dbuf0 }
    let pid := { pid with out := pid.out + (pid.Pout + pid.Iout + pid.Dout) }
    { pid with out := LimitMax pid.out pid.max_out }
  else pid

/-- `PID_calc` of `pid.c`: the struct after the call and the returned value;
a `NULL` controller returns `0.0f`. -/
def PID_calc (PID_POSITION PID_DELTA : Nat) (pid : Option (pid_type_def α)) (ref set : α) :
    Option (pid_type_def α) × α :=
  match pid with
  | none => (none, 0)
  | some p =>
    let q := PID_calc_body PID_POSITION PID_DELTA p ref set
    (some q, q.out)

/-- `PID_clear` of `pid.c`. -/
def PID_clear (pid : Option (pid_type_def α)) : Option (pid_type_def α) :=
  match pid with
  | none => none
  | some p =>
    some { p with
      error0 := 0
      error1 := 0
      error2 := 0
      Dbuf0 := 0
      Dbuf1 := 0
      Dbuf2 := 0
      out := 0
      Pout := 0
      Iout := 0
      Dout := 0
      fdb := 0
      set := 0 }

/-- The value that `pid->out` holds when the final `LimitMax(pid->out, pid->max_out)`
of `PID_calc` is reached: line 104 in the position branch, line 115 in the delta
branch (the position branch is tested first). -/
def PID_pre_clamp (PID_POSITION : Nat) (pid : pid_type_def α) (ref set : α) : α :=
  if pid.mode = PID_POSITION then
    pid.Kp * (set - ref) + LimitMax (pid.Iout + pid.Ki * (set - ref)) pid.max_iout
      + pid.Kd * ((set - ref) - pid.error0)
  else
    pid.out + (pid.Kp * ((set - ref) - pid.error0) + pid.Ki * (set - ref)
      + pid.Kd * ((set - ref) - 2 * pid.error0 + pid.error1))

/-- Successive `PID_calc` calls on one controller, one per `(ref, set)` pair of
the list: the struct and the returned value after each call, in call order. -/
def PID_calc_seq (PID_POSITION PID_DELTA : Nat) (pid : Option (pid_type_def α)) :
    List (α × α) → List (Option (pid_type_def α) × α)
  | [] => []
  | (ref, set) :: rest =>
    (PID_calc PID_POSITION PID_DELTA pid ref set) ::
      PID_calc_seq PID_POSITION PID_DELTA (PID_calc PID_POSITION PID_DELTA pid ref set).1 rest

end pid

/-! ## Motor telemetry and command channel (`CAN_receive.c`) -/

/-- Conversion of an integer to `uint8_t`. -/
def to_uint8 (x : Int) : Nat := (x % 256).toNat

/-- Conversion of an integer to `uint16_t`. -/
def to_uint16 (x : Int) : Nat := (x % 65536).toNat

/-- Conversion of an integer to `uint32_t`. -/
def to_uint32 (x : Int) : Nat := (x % 4294967296).toNat

/-- Conversion of an integer to `int16_t` (two's complement). -/
def to_int16 (x : Int) : Int := (x + 32768) % 65536 - 32768

/-- Modelled from the spec: the declaration of `motor_measure_t` lives in
`CAN_receive.h`, which is absent; the spec's `MotorMeasurement` gives
`ecd : u16`, `last_ecd : u16`, `speed_rpm : i16`, `given_current : i16`,
`temperate : u8`. -/
structure motor_measure_t where
  ecd : Nat
  speed_rpm : Int
  given_current : Int
  temperate : Nat
  last_ecd : Nat
deriving DecidableEq, Repr

/-- The peripheral behind a handle, `hcan->Instance`: the callback compares it
with `CAN1` and `CAN2` only. -/
inductive CAN_TypeDef where
  | CAN1
  | CAN2
  | other
deriving DecidableEq, Repr

/-- The two handles of the firmware, `hcan1` and `hcan2`. -/
inductive CAN_HandleTypeDef where
  | hcan1
  | hcan2
deriving DecidableEq, Repr

/-- The constants that `CAN_receive.c` takes from absent headers
(`CAN_receive.h`, `detect_task.h`, the HAL), as parameters. -/
structure can_consts where
  CAN_CHASSIS_ALL_ID : Nat
  CAN_3508_M1_ID : Nat
  CAN_3508_M2_ID : Nat
  CAN_3508_M3_ID : Nat
  CAN_3508_M4_ID : Nat
  CAN_YAW_MOTOR_ID : Nat
  CAN_PIT_MOTOR_ID : Nat
  CAN_TRIGGER_MOTOR_ID : Nat
  CAN_GIMBAL_ALL_ID : Nat
  CAN_3508_FRIC1_ID : Nat
  CAN_3508_FRIC2_ID : Nat
  CHASSIS_MOTOR1_TOE : Nat
  CAN_ID_STD : Nat
  CAN_RTR_DATA : Nat
  GIMBAL_CAN : CAN_HandleTypeDef
  CHASSIS_CAN : CAN_HandleTypeDef
deriving DecidableEq, Repr

/-- The fields of the HAL's `CAN_RxHeaderTypeDef` that matter here. -/
structure CAN_RxHeaderTypeDef where
  StdId : Nat
  DLC : Nat
deriving DecidableEq, Repr

/-- The fields of the HAL's `CAN_TxHeaderTypeDef` that the encoders assign. -/
structure CAN_TxHeaderTypeDef where
  StdId : Nat
  IDE : Nat
  RTR : Nat
  DLC : Nat
deriving DecidableEq, Repr

/-- The file-scope variables of `CAN_receive.c`. The three block-local
`static uint8_t i` are written before every read and are left out. -/
structure can_state where
  motor_chassis : Fin 9 → motor_measure_t
  gimbal_tx_message : CAN_TxHeaderTypeDef
  gimbal_can_send_data : Fin 8 → Nat
  chassis_tx_message : CAN_TxHeaderTypeDef
  chassis_can_send_data : Fin 8 → Nat
  fric_tx_message : CAN_TxHeaderTypeDef
  fric_can_send_data : Fin 8 → Nat
  spd1 : Int
  spd2 : Int

/-- The expression `(uint16_t)((data)[k] << 8 | (data)[k+1])` of the macro
`get_motor_measure`, on the two bytes. -/
def be16 (hi lo : Nat) : Nat := to_uint16 ((hi <<< 8 ||| lo : Nat) : Int)

/-- The macro `get_motor_measure(ptr, data)`, as the new value of `*ptr`. -/
def get_motor_measure (ptr : motor_measure_t) (data : Fin 8 → Nat) : motor_measure_t :=
  let ptr := { ptr with last_ecd := ptr.ecd }
  let ptr := { ptr with ecd := be16 (data 0) (data 1) }
  let ptr := { ptr with speed_rpm := to_int16 (be16 (data 2) (data 3)) }
  let ptr := { ptr with given_current := to_int16 (be16 (data 4) (data 5)) }
  { ptr with temperate := data 6 }

/-- The three `case` blocks of the callback's two `switch` statements. -/
inductive rx_case where
  | chassis
  | fric
  | gimbal
deriving DecidableEq, Repr

/-- The dispatch of `HAL_CAN_RxFifo0MsgPendingCallback`: the test on
`hcan->Instance` and the `case` labels of the `switch` on `rx_header.StdId`;
`none` is a `default:` branch or a handle that is neither `CAN1` nor `CAN2`. -/
def rx_dispatch (c : can_consts) (hcan : CAN_TypeDef) (StdId : Nat) : Option rx_case :=
  match hcan with
  | .CAN1 =>
    if StdId = c.CAN_3508_M1_ID ∨ StdId = c.CAN_3508_M2_ID ∨ StdId = c.CAN_3508_M3_ID
        ∨ StdId = c.CAN_3508_M4_ID then some .chassis
    else none
  | .CAN2 =>
    if StdId = c.CAN_3508_FRIC1_ID ∨ StdId = c.CAN_3508_FRIC2_ID then some .fric
    else if StdId = c.CAN_YAW_MOTOR_ID ∨ StdId = c.CAN_PIT_MOTOR_ID
        ∨ StdId = c.CAN_TRIGGER_MOTOR_ID then some .gimbal
    else none
  | .other => none

/-- The assignment to `i` at the head of each `case` block: `uint32_t`
arithmetic on `rx_header.StdId`, stored in a `uint8_t`. -/
def rx_index (c : can_consts) (blk : rx_case) (StdId : Nat) : Nat :=
  match blk with
  | .chassis => to_uint8 (to_uint32 ((StdId : Int) - c.CAN_3508_M1_ID))
  | .fric => to_uint8 (to_uint32 ((StdId : Int) - c.CAN_3508_M1_ID + 7))
  | .gimbal => to_uint8 (to_uint32 ((StdId : Int) - c.CAN_3508_M1_ID))

/-- The table index a frame resolves to: the `i` of the block its identifier
selects, if any. -/
def rx_slot (c : can_consts) (hcan : CAN_TypeDef) (StdId : Nat) : Option Nat :=
  (rx_dispatch c hcan StdId).map fun blk => rx_index c blk StdId

/-- What one run of the receive callback does: the module state after it, the
index handed to `get_motor_measure` (if any), and the keys handed to
`detect_hook`, in call order. -/
structure rx_outcome where
  state : can_state
  slot : Option Nat
  hooks : List Nat

/-- `HAL_CAN_RxFifo0MsgPendingCallback`, given what `HAL_CAN_GetRxMessage`
delivered (`rx_header`, `rx_data`). `none` is a write outside the nine-element
array `motor_chassis`, which C leaves undefined. -/
def HAL_CAN_RxFifo0MsgPendingCallback (c : can_consts) (s : can_state) (hcan : CAN_TypeDef)
    (rx_header : CAN_RxHeaderTypeDef) (rx_data : Fin 8 → Nat) : Option rx_outcome :=
  match rx_dispatch c hcan rx_header.StdId with
  | none => some { state := s, slot := none, hooks := [] }
  | some blk =>
    let i := rx_index c blk rx_header.StdId
    if h : i < 9 then
      let t := Function.update s.motor_chassis ⟨i, h⟩
        (get_motor_measure (s.motor_chassis ⟨i, h⟩) rx_data)
      match blk with
      | .fric =>
        some { state := { s with motor_chassis := t, spd1 := (t 7).speed_rpm,
                                 spd2 := (t 8).speed_rpm },
               slot := some i, hooks := [] }
      | _ =>
        some { state := { s with motor_chassis := t }, slot := some i,
               hooks := [c.CHASSIS_MOTOR1_TOE + i] }
    else none

/-- The arguments of one `HAL_CAN_AddTxMessage` call: handle, header, payload. -/
structure tx_frame where
  hcan : CAN_HandleTypeDef
  header : CAN_TxHeaderTypeDef
  data : Fin 8 → Nat

/-- The eight byte stores shared by the four-value encoders:
`buf[2k] = vk >> 8; buf[2k+1] = vk;`, each converted to `uint8_t`. -/
def store4 (buf : Fin 8 → Nat) (v1 v2 v3 v4 : Int) : Fin 8 → Nat :=
  let buf := Function.update buf 0 (to_uint8 (v1 >>> (8 : Nat)))
  let buf := Function.update buf 1 (to_uint8 v1)
  let buf := Function.update buf 2 (to_uint8 (v2 >>> (8 : Nat)))
  let buf := Function.update buf 3 (to_uint8 v2)
  let buf := Function.update buf 4 (to_uint8 (v3 >>> (8 : Nat)))
  let buf := Function.update buf 5 (to_uint8 v3)
  let buf := Function.update buf 6 (to_uint8 (v4 >>> (8 : Nat)))
  Function.update buf 7 (to_uint8 v4)

/-- `CAN_cmd_gimbal`: the state after the call and the frame handed to the HAL. -/
def CAN_cmd_gimbal (c : can_consts) (s : can_state) (yaw pitch shoot rev : Int) :
    can_state × tx_frame :=
  let hdr : CAN_TxHeaderTypeDef :=
    { StdId := c.CAN_GIMBAL_ALL_ID, IDE := c.CAN_ID_STD, RTR := c.CAN_RTR_DATA, DLC := 0x08 }
  let buf := store4 s.gimbal_can_send_data yaw pitch shoot rev
  ({ s with gimbal_tx_message := hdr, gimbal_can_send_data := buf },
   { hcan := c.GIMBAL_CAN, header := hdr, data := buf })

/-- `CAN_cmd_fric`: it uses the gimbal header and buffer with `CAN_CHASSIS_ALL_ID`. -/
def CAN_cmd_fric (c : can_consts) (s : can_state) (v1 v2 v3 v4 : Int) :
    can_state × tx_frame :=
  let hdr : CAN_TxHeaderTypeDef :=
    { StdId := c.CAN_CHASSIS_ALL_ID, IDE := c.CAN_ID_STD, RTR := c.CAN_RTR_DATA, DLC := 0x08 }
  let buf := store4 s.gimbal_can_send_data v1 v2 v3 v4
  ({ s with gimbal_tx_message := hdr, gimbal_can_send_data := buf },
   { hcan := c.GIMBAL_CAN, header := hdr, data := buf })

/-- `CAN_cmd_fric1`: only bytes 0 and 1 of `fric_can_send_data` are stored. -/
def CAN_cmd_fric1 (c : can_consts) (s : can_state) (fric1_speed : Int) :
    can_state × tx_frame :=
  let hdr : CAN_TxHeaderTypeDef :=
    { StdId := c.CAN_CHASSIS_ALL_ID, IDE := c.CAN_ID_STD, RTR := c.CAN_RTR_DATA, DLC := 0x08 }
  let buf := s.fric_can_send_data
  let buf := Function.update buf 0 (to_uint8 (fric1_speed >>> (8 : Nat)))
  let buf := Function.update buf 1 (to_uint8 fric1_speed)
  ({ s with fric_tx_message := hdr, fric_can_send_data := buf },
   { hcan := c.GIMBAL_CAN, header := hdr, data := buf })

/-- `CAN_cmd_fric2`: all eight bytes of `fric_can_send_data` are stored. -/
def CAN_cmd_fric2 (c : can_consts) (s : can_state) (fric1_speed : Int) :
    can_state × tx_frame :=
  let hdr : CAN_TxHeaderTypeDef :=
    { StdId := c.CAN_CHASSIS_ALL_ID, IDE := c.CAN_ID_STD, RTR := c.CAN_RTR_DATA, DLC := 0x08 }
  let buf := s.fric_can_send_data
  let buf := Function.update buf 0 0
  let buf := Function.update buf 1 0
  let buf := Function.update buf 2 (to_uint8 (fric1_speed >>> (8 : Nat)))
  let buf := Function.update buf 3 (to_uint8 fric1_speed)
  let buf := Function.update buf 4 0
  let buf := Function.update buf 5 0
  let buf := Function.update buf 6 0
  let buf := Function.update buf 7 0
  ({ s with fric_tx_message := hdr, fric_can_send_data := buf },
   { hcan := c.GIMBAL_CAN, header := hdr, data := buf })

/-- `CAN_cmd_chassis_reset_ID`. -/
def CAN_cmd_chassis_reset_ID (c : can_consts) (s : can_state) : can_state × tx_frame :=
  let hdr : CAN_TxHeaderTypeDef :=
    { StdId := 0x700, IDE := c.CAN_ID_STD, RTR := c.CAN_RTR_DATA, DLC := 0x08 }
  let buf : Fin 8 → Nat := fun _ => 0
  ({ s with chassis_tx_message := hdr, chassis_can_send_data := buf },
   { hcan := c.CHASSIS_CAN, header := hdr, data := buf })

/-- `CAN_cmd_chassis`: the state after the call and the frame handed to the HAL. -/
def CAN_cmd_chassis (c : can_consts) (s : can_state) (motor1 motor2 motor3 motor4 : Int) :
    can_state × tx_frame :=
  let hdr : CAN_TxHeaderTypeDef :=
    { StdId := c.CAN_CHASSIS_ALL_ID, IDE := c.CAN_ID_STD, RTR := c.CAN_RTR_DATA, DLC := 0x08 }
  let buf := store4 s.chassis_can_send_data motor1 motor2 motor3 motor4
  ({ s with chassis_tx_message := hdr, chassis_can_send_data := buf },
   { hcan := c.CHASSIS_CAN, header := hdr, data := buf })

/-- `get_chassis_motor_measure_point(i)`: the index of the element of
`motor_chassis` whose address is returned, `i & 0x03`. -/
def get_chassis_motor_measure_point (i : Nat) : Nat := i &&& 0x03

/-- The record behind a pointer `&motor_chassis[k]`; `none` outside the array. -/
def motor_at (s : can_state) (k : Nat) : Option motor_measure_t :=
  if h : k < 9 then some (s.motor_chassis ⟨k, h⟩) else none


/-! ## Notions taken from the specification -/

/-- The signed 16-bit two's-complement reading of an unsigned 16-bit value. -/
def twos_complement16 (n : Nat) : Int :=
  if n < 32768 then (n : Int) else (n : Int) - 65536

/-- The identifier constants are consecutive from `CAN_3508_M1_ID`, and the two
auxiliary identifiers are `M1` and `M1 + 1`. -/
def ids_consecutive (c : can_consts) : Prop :=
  c.CAN_3508_M2_ID = c.CAN_3508_M1_ID + 1 ∧ c.CAN_3508_M3_ID = c.CAN_3508_M1_ID + 2 ∧
  c.CAN_3508_M4_ID = c.CAN_3508_M1_ID + 3 ∧ c.CAN_YAW_MOTOR_ID = c.CAN_3508_M1_ID + 4 ∧
  c.CAN_PIT_MOTOR_ID = c.CAN_3508_M1_ID + 5 ∧ c.CAN_TRIGGER_MOTOR_ID = c.CAN_3508_M1_ID + 6 ∧
  c.CAN_3508_FRIC1_ID = c.CAN_3508_M1_ID ∧ c.CAN_3508_FRIC2_ID = c.CAN_3508_M1_ID + 1

instance (c : can_consts) : Decidable (ids_consecutive c) := by
  unfold ids_consecutive
  infer_instance

/-- The slot mapping of the specification under `ids_consecutive`: drive
identifiers on `CAN1` go to `id - M1` (0..3), yaw/pitch/trigger identifiers on
`CAN2` go to `id - M1` (4..6), the two auxiliary identifiers on `CAN2` go to
`id - M1 + 7` (7..8); nothing else is mapped. -/
def slot_spec (c : can_consts) (hcan : CAN_TypeDef) (StdId : Nat) : Option Nat :=
  if hcan = .CAN1 ∧ c.CAN_3508_M1_ID ≤ StdId ∧ StdId ≤ c.CAN_3508_M1_ID + 3 then
    some (StdId - c.CAN_3508_M1_ID)
  else if hcan = .CAN2 ∧ c.CAN_3508_M1_ID + 4 ≤ StdId ∧ StdId ≤ c.CAN_3508_M1_ID + 6 then
    some (StdId - c.CAN_3508_M1_ID)
  else if hcan = .CAN2 ∧ c.CAN_3508_M1_ID ≤ StdId ∧ StdId ≤ c.CAN_3508_M1_ID + 1 then
    some (StdId - c.CAN_3508_M1_ID + 7)
  else none

/-- The (bus, identifier) pairs in the mapping of a bus: the four drive
identifiers on `CAN1`; yaw, pitch, trigger and the two auxiliary identifiers on
`CAN2`. -/
def in_mapping (c : can_consts) (hcan : CAN_TypeDef) (StdId : Nat) : Prop :=
  (hcan = .CAN1 ∧ (StdId = c.CAN_3508_M1_ID ∨ StdId = c.CAN_3508_M2_ID
      ∨ StdId = c.CAN_3508_M3_ID ∨ StdId = c.CAN_3508_M4_ID)) ∨
  (hcan = .CAN2 ∧ (StdId = c.CAN_YAW_MOTOR_ID ∨ StdId = c.CAN_PIT_MOTOR_ID
      ∨ StdId = c.CAN_TRIGGER_MOTOR_ID ∨ StdId = c.CAN_3508_FRIC1_ID
      ∨ StdId = c.CAN_3508_FRIC2_ID))

instance (c : can_consts) (hcan : CAN_TypeDef) (StdId : Nat) :
    Decidable (in_mapping c hcan StdId) := by
  unfold in_mapping
  infer_instance

/-- Reading byte pairs `(2k, 2k+1)`, `k = 0..3`, of a payload the way the
telemetry macro reads a signed field: `(uint16_t)(d[2k] << 8 | d[2k+1])`
converted to `int16_t`. -/
def decode4 (d : Fin 8 → Nat) : Int × Int × Int × Int :=
  (to_int16 (be16 (d 0) (d 1)), to_int16 (be16 (d 2) (d 3)),
   to_int16 (be16 (d 4) (d 5)), to_int16 (be16 (d 6) (d 7)))

/-- A value of type `int16_t`. -/
def is_int16 (v : Int) : Prop := -32768 ≤ v ∧ v ≤ 32767

instance (v : Int) : Decidable (is_int16 v) := by
  unfold is_int16
  infer_instance

/-- The high byte of the 16-bit two's-complement representation of `v`. -/
def hi16 (v : Int) : Nat := to_uint16 v / 256

/-- The low byte of the 16-bit two's-complement representation of `v`. -/
def lo16 (v : Int) : Nat := to_uint16 v % 256

/-! ## Concrete inputs used below -/

/-- Identifier values in the usual layout (`0x201..0x207`, auxiliary `0x201`, `0x202`). -/
def can_consts_sample : can_consts :=
  { CAN_CHASSIS_ALL_ID := 0x200, CAN_3508_M1_ID := 0x201, CAN_3508_M2_ID := 0x202,
    CAN_3508_M3_ID := 0x203, CAN_3508_M4_ID := 0x204, CAN_YAW_MOTOR_ID := 0x205,
    CAN_PIT_MOTOR_ID := 0x206, CAN_TRIGGER_MOTOR_ID := 0x207, CAN_GIMBAL_ALL_ID := 0x1FF,
    CAN_3508_FRIC1_ID := 0x201, CAN_3508_FRIC2_ID := 0x202, CHASSIS_MOTOR1_TOE := 1,
    CAN_ID_STD := 0, CAN_RTR_DATA := 0, GIMBAL_CAN := .hcan2, CHASSIS_CAN := .hcan1 }

/-- The module state at process start: every static object is zero. -/
def can_state_zero : can_state :=
  { motor_chassis := fun _ => { ecd := 0, speed_rpm := 0, given_current := 0, temperate := 0,
                                last_ecd := 0 },
    gimbal_tx_message := { StdId := 0, IDE := 0, RTR := 0, DLC := 0 },
    gimbal_can_send_data := fun _ => 0,
    chassis_tx_message := { StdId := 0, IDE := 0, RTR := 0, DLC := 0 },
    chassis_can_send_data := fun _ => 0,
    fric_tx_message := { StdId := 0, IDE := 0, RTR := 0, DLC := 0 },
    fric_can_send_data := fun _ => 0,
    spd1 := 0, spd2 := 0 }

/-- A module state whose slot `k` holds `ecd = k + 1`. -/
def can_state_numbered : can_state :=
  { can_state_zero with
    motor_chassis := fun k => { ecd := k.val + 1, speed_rpm := 0, given_current := 0,
                                temperate := 0, last_ecd := 0 } }

/-- A telemetry payload: `ecd = 0x1234`, `speed_rpm = -2`, `given_current = 0x0102`,
`temperate = 40`, last byte `0x99`. -/
def rx_data_sample : Fin 8 → Nat := ![0x12, 0x34, 0xFF, 0xFE, 0x01, 0x02, 40, 0x99]

/-- A controller state over the rationals with non-trivial history. -/
def pid_sample (mode : Nat) : pid_type_def ℚ :=
  { mode := mode, Kp := 2, Ki := 1, Kd := 3, max_out := 10, max_iout := 4,
    set := 0, fdb := 0, out := -6, Pout := 0, Iout := 3, Dout := 0,
    Dbuf0 := 0, Dbuf1 := 0, Dbuf2 := 0, error0 := 1, error1 := 2, error2 := 0 }

/-! ## Properties of the PID controller -/

section pid_theorems
variable {α : Type} [LinearOrderedRing α]

theorem LimitMax_eq_clamp (x m : α) : LimitMax x m = clamp x m := rfl

theorem LimitMax_bounds (x m : α) (hm : 0 ≤ m) : -m ≤ LimitMax x m ∧ LimitMax x m ≤ m := by
  unfold LimitMax
  split_ifs with h1 h2
  · exact ⟨neg_le_self hm, le_refl m⟩
  · exact ⟨le_refl _, neg_le_self hm⟩
  · exact ⟨not_lt.mp h2, not_lt.mp h1⟩

theorem LimitMax_of_mem (x m : α) (h1 : -m ≤ x) (h2 : x ≤ m) : LimitMax x m = x := by
  unfold LimitMax
  rw [if_neg (not_lt.mpr h2), if_neg (not_lt.mpr h1)]

/-- C1. In position mode one `PID_calc` call sets `error[0] = set - ref`,
`Pout = Kp*error[0]`, `Iout = clamp(old Iout + Ki*error[0], max_iout)`,
`Dbuf[0] = error[0] - old error[0]`, `Dout = Kd*Dbuf[0]` and returns
`out = clamp(Pout + Iout + Dout, max_out)`; the clamped integral is the one summed
into the output and the one the next call accumulates onto. -/
theorem PID_calc_position (PID_POSITION PID_DELTA : Nat) (pid : pid_type_def α) (ref set : α)
    (hmode : pid.mode = PID_POSITION) :
    ∃ q : pid_type_def α,
      PID_calc PID_POSITION PID_DELTA (some pid) ref set = (some q, q.out) ∧
      q.error0 = set - ref ∧
      q.Pout = pid.Kp * q.error0 ∧
      q.Iout = clamp (pid.Iout + pid.Ki * q.error0) pid.max_iout ∧
      q.Dbuf0 = q.error0 - pid.error0 ∧
      q.Dout = pid.Kd * q.Dbuf0 ∧
      q.out = clamp (q.Pout + q.Iout + q.Dout) pid.max_out ∧
      ∀ ref2 set2 : α, ∃ q2 : pid_type_def α,
        PID_calc PID_POSITION PID_DELTA (some q) ref2 set2 = (some q2, q2.out) ∧
        q2.Iout = clamp (q.Iout + pid.Ki * (set2 - ref2)) pid.max_iout := by
  refine ⟨PID_calc_body PID_POSITION PID_DELTA pid ref set, rfl, ?_⟩
  simp only [PID_calc_body, hmode, if_true, LimitMax_eq_clamp, true_and]
  intro ref2 set2
  exact ⟨_, rfl, by simp only [PID_calc_body, hmode, if_true, LimitMax_eq_clamp]⟩

/-- Witness for C1 on `pid_sample 0` with feedback 1 and setpoint 3. -/
theorem PID_calc_position_witness :
    (pid_sample 0).mode = 0 ∧
    ∃ q : pid_type_def ℚ,
      PID_calc 0 1 (some (pid_sample 0)) 1 3 = (some q, q.out) ∧
      q.error0 = 3 - 1 ∧
      q.Pout = (pid_sample 0).Kp * q.error0 ∧
      q.Iout = clamp ((pid_sample 0).Iout + (pid_sample 0).Ki * q.error0)
        (pid_sample 0).max_iout ∧
      q.Dbuf0 = q.error0 - (pid_sample 0).error0 ∧
      q.Dout = (pid_sample 0).Kd * q.Dbuf0 ∧
      q.out = clamp (q.Pout + q.Iout + q.Dout) (pid_sample 0).max_out ∧
      ∀ ref2 set2 : ℚ, ∃ q2 : pid_type_def ℚ,
        PID_calc 0 1 (some q) ref2 set2 = (some q2, q2.out) ∧
        q2.Iout = clamp (q.Iout + (pid_sample 0).Ki * (set2 - ref2))
          (pid_sample 0).max_iout :=
  ⟨rfl, PID_calc_position 0 1 (pid_sample 0) 1 3 rfl⟩

/-- C2. In delta mode one `PID_calc` call sets `error[0] = set - ref`,
`Pout = Kp*(error[0] - old error[0])`, `Iout = Ki*error[0]` (whatever the old
`Iout` was), `Dbuf[0] = error[0] - 2*(old error[0]) + (old error[1])`,
`Dout = Kd*Dbuf[0]` and returns `out = clamp(old out + Pout + Iout + Dout, max_out)`.
The two mode enumerators are distinct. -/
theorem PID_calc_delta (PID_POSITION PID_DELTA : Nat) (pid : pid_type_def α) (ref set : α)
    (henum : PID_POSITION ≠ PID_DELTA) (hmode : pid.mode = PID_DELTA) :
    ∃ q : pid_type_def α,
      PID_calc PID_POSITION PID_DELTA (some pid) ref set = (some q, q.out) ∧
      q.error0 = set - ref ∧
      q.Pout = pid.Kp * (q.error0 - pid.error0) ∧
      q.Iout = pid.Ki * q.error0 ∧
      (∀ iout : α, (PID_calc_body PID_POSITION PID_DELTA { pid with Iout := iout } ref set).Iout
        = q.Iout) ∧
      q.Dbuf0 = q.error0 - 2 * pid.error0 + pid.error1 ∧
      q.Dout = pid.Kd * q.Dbuf0 ∧
      q.out = clamp (pid.out + q.Pout + q.Iout + q.Dout) pid.max_out := by
  have hne : ¬ PID_DELTA = PID_POSITION := fun h => henum h.symm
  refine ⟨PID_calc_body PID_POSITION PID_DELTA pid ref set, rfl, ?_⟩
  simp only [PID_calc_body, hmode, hne, if_true, if_false, LimitMax_eq_clamp, add_assoc,
    true_and, implies_true]

/-- Witness for C2 on `pid_sample 1` with feedback 1 and setpoint 3. -/
theorem PID_calc_delta_witness :
    (0 : Nat) ≠ 1 ∧ (pid_sample 1).mode = 1 ∧
    ∃ q : pid_type_def ℚ,
      PID_calc 0 1 (some (pid_sample 1)) 1 3 = (some q, q.out) ∧
      q.error0 = 3 - 1 ∧
      q.Pout = (pid_sample 1).Kp * (q.error0 - (pid_sample 1).error0) ∧
      q.Iout = (pid_sample 1).Ki * q.error0 ∧
      (∀ iout : ℚ, (PID_calc_body 0 1 { pid_sample 1 with Iout := iout } 1 3).Iout
        = q.Iout) ∧
      q.Dbuf0 = q.error0 - 2 * (pid_sample 1).error0 + (pid_sample 1).error1 ∧
      q.Dout = (pid_sample 1).Kd * q.Dbuf0 ∧
      q.out = clamp ((pid_sample 1).out + q.Pout + q.Iout + q.Dout) (pid_sample 1).max_out :=
  ⟨by decide, rfl, PID_calc_delta 0 1 (pid_sample 1) 1 3 (by decide) rfl⟩

theorem PID_calc_body_out (PID_POSITION PID_DELTA : Nat) (pid : pid_type_def α) (ref set : α)
    (hmode : pid.mode = PID_POSITION ∨ pid.mode = PID_DELTA) :
    (PID_calc_body PID_POSITION PID_DELTA pid ref set).out
      = LimitMax (PID_pre_clamp PID_POSITION pid ref set) pid.max_out := by
  by_cases hp : pid.mode = PID_POSITION
  · simp only [PID_calc_body, PID_pre_clamp, hp, if_true]
  · have hd : pid.mode = PID_DELTA := hmode.resolve_left hp
    have hne : ¬ PID_DELTA = PID_POSITION := fun h => hp (hd.trans h)
    simp only [PID_calc_body, PID_pre_clamp, hd, hne, if_true, if_false]

/-- C3. With mode position or delta and `max_out >= 0`, the value returned by
`PID_calc` is the stored `out`, lies in `[-max_out, max_out]` whatever the prior
state, is the clamp of the pre-clamp value, and equals the pre-clamp value when
that already lies in `[-max_out, max_out]`. -/
theorem PID_calc_out_bounded (PID_POSITION PID_DELTA : Nat) (pid : pid_type_def α)
    (ref set : α) (hmode : pid.mode = PID_POSITION ∨ pid.mode = PID_DELTA)
    (hmax : 0 ≤ pid.max_out) :
    ∃ q : pid_type_def α,
      PID_calc PID_POSITION PID_DELTA (some pid) ref set = (some q, q.out) ∧
      -pid.max_out ≤ q.out ∧ q.out ≤ pid.max_out ∧
      q.out = clamp (PID_pre_clamp PID_POSITION pid ref set) pid.max_out ∧
      (-pid.max_out ≤ PID_pre_clamp PID_POSITION pid ref set →
        PID_pre_clamp PID_POSITION pid ref set ≤ pid.max_out →
        q.out = PID_pre_clamp PID_POSITION pid ref set) := by
  refine ⟨PID_calc_body PID_POSITION PID_DELTA pid ref set, rfl, ?_⟩
  rw [PID_calc_body_out PID_POSITION PID_DELTA pid ref set hmode]
  have hb := LimitMax_bounds (PID_pre_clamp PID_POSITION pid ref set) pid.max_out hmax
  exact ⟨hb.1, hb.2, rfl, fun h1 h2 => LimitMax_of_mem _ _ h1 h2⟩

/-- Witness for C3: `pid_sample 1` (delta mode, prior `out = -6`, `max_out = 10`, pre-clamp value 4). -/
theorem PID_calc_out_bounded_witness :
    ((pid_sample 1).mode = 0 ∨ (pid_sample 1).mode = 1) ∧ (0 : ℚ) ≤ (pid_sample 1).max_out ∧
    ∃ q : pid_type_def ℚ,
      PID_calc 0 1 (some (pid_sample 1)) 1 3 = (some q, q.out) ∧
      -(pid_sample 1).max_out ≤ q.out ∧ q.out ≤ (pid_sample 1).max_out ∧
      q.out = clamp (PID_pre_clamp 0 (pid_sample 1) 1 3) (pid_sample 1).max_out ∧
      (-(pid_sample 1).max_out ≤ PID_pre_clamp 0 (pid_sample 1) 1 3 →
        PID_pre_clamp 0 (pid_sample 1) 1 3 ≤ (pid_sample 1).max_out →
        q.out = PID_pre_clamp 0 (pid_sample 1) 1 3) :=
  ⟨Or.inr rfl, by norm_num [pid_sample],
    PID_calc_out_bounded 0 1 (pid_sample 1) 1 3 (Or.inr rfl) (by norm_num [pid_sample])⟩

/-- C4. Starting from the state `PID_init` produces (any prior content, any mode,
gains and limits), `PID_calc f s`, then `PID_clear`, then `PID_calc f s` again
returns the value of the first call, and leaves the same state as the first call. -/
theorem PID_clear_then_calc_repeats (PID_POSITION PID_DELTA : Nat) (p0 : pid_type_def α)
    (mode : Nat) (kp ki kd max_out max_iout f s : α) :
    (PID_calc PID_POSITION PID_DELTA
        (PID_clear (PID_calc PID_POSITION PID_DELTA
          (PID_init (some p0) mode (some (kp, ki, kd)) max_out max_iout) f s).1) f s).2
      = (PID_calc PID_POSITION PID_DELTA
          (PID_init (some p0) mode (some (kp, ki, kd)) max_out max_iout) f s).2 ∧
    (PID_calc PID_POSITION PID_DELTA
        (PID_clear (PID_calc PID_POSITION PID_DELTA
          (PID_init (some p0) mode (some (kp, ki, kd)) max_out max_iout) f s).1) f s).1
      = (PID_calc PID_POSITION PID_DELTA
          (PID_init (some p0) mode (some (kp, ki, kd)) max_out max_iout) f s).1 := by
  simp only [PID_init, PID_calc, PID_clear, PID_calc_body]
  by_cases hp : mode = PID_POSITION
  · subst hp
    simp
  · by_cases hd : mode = PID_DELTA
    · subst hd
      simp [hp]
    · simp [hp, hd]

end pid_theorems

/-! ## Properties of the motor channel -/

theorem be16_eq (hi lo : Nat) (hhi : hi < 256) (hlo : lo < 256) :
    be16 hi lo = 256 * hi + lo := by
  have h : hi <<< 8 ||| lo = 2 ^ 8 * hi + lo := by
    rw [Nat.shiftLeft_eq, Nat.mul_comm]
    exact (Nat.mul_add_lt_is_or (by omega : lo < 2 ^ 8) hi).symm
  unfold be16 to_uint16
  rw [h]
  omega

theorem to_int16_eq_twos_complement16 (n : Nat) (hn : n < 65536) :
    to_int16 (n : Int) = twos_complement16 n := by
  unfold to_int16 twos_complement16
  split_ifs with h <;> omega

theorem to_uint8_lt (x : Int) : to_uint8 x < 256 := by
  unfold to_uint8
  omega

theorem encode_decode16 (v : Int) (hv : is_int16 v) :
    to_int16 (be16 (to_uint8 (v >>> (8 : Nat))) (to_uint8 v)) = v := by
  rw [be16_eq _ _ (to_uint8_lt _) (to_uint8_lt _)]
  have hs : v >>> (8 : Nat) = v / 256 := by
    rw [Int.shiftRight_eq_div_pow]
    norm_num
  rw [hs]
  unfold is_int16 at hv
  unfold to_int16 to_uint8
  omega

theorem decode4_store4 (buf : Fin 8 → Nat) (v0 v1 v2 v3 : Int)
    (h0 : is_int16 v0) (h1 : is_int16 v1) (h2 : is_int16 v2) (h3 : is_int16 v3) :
    decode4 (store4 buf v0 v1 v2 v3) = (v0, v1, v2, v3) := by
  have e0 := encode_decode16 v0 h0
  have e1 := encode_decode16 v1 h1
  have e2 := encode_decode16 v2 h2
  have e3 := encode_decode16 v3 h3
  simp [decode4, store4, Function.update, e0, e1, e2, e3]

theorem rx_slot_eq_some (c : can_consts) (hcan : CAN_TypeDef) (StdId k : Nat)
    (h : rx_slot c hcan StdId = some k) :
    ∃ blk, rx_dispatch c hcan StdId = some blk ∧ rx_index c blk StdId = k := by
  unfold rx_slot at h
  cases hd : rx_dispatch c hcan StdId with
  | none => rw [hd] at h; cases h
  | some blk =>
    rw [hd] at h
    exact ⟨blk, rfl, Option.some.inj h⟩

theorem callback_of_dispatch (c : can_consts) (s : can_state) (hcan : CAN_TypeDef)
    (rx_header : CAN_RxHeaderTypeDef) (rx_data : Fin 8 → Nat) (blk : rx_case) (k : Fin 9)
    (hd : rx_dispatch c hcan rx_header.StdId = some blk)
    (hi : rx_index c blk rx_header.StdId = k.val) :
    ∃ r : rx_outcome,
      HAL_CAN_RxFifo0MsgPendingCallback c s hcan rx_header rx_data = some r ∧
      r.slot = some k.val ∧
      r.state.motor_chassis
        = Function.update s.motor_chassis k (get_motor_measure (s.motor_chassis k) rx_data) ∧
      r.hooks = (if blk = .fric then [] else [c.CHASSIS_MOTOR1_TOE + k.val]) := by
  have hk : rx_index c blk rx_header.StdId < 9 := by rw [hi]; exact k.isLt
  have hfin : (⟨rx_index c blk rx_header.StdId, hk⟩ : Fin 9) = k := Fin.ext hi
  unfold HAL_CAN_RxFifo0MsgPendingCallback
  rw [hd]
  simp only [dif_pos hk, hfin]
  cases blk <;> simp [hi]

theorem callback_of_no_dispatch (c : can_consts) (s : can_state) (hcan : CAN_TypeDef)
    (rx_header : CAN_RxHeaderTypeDef) (rx_data : Fin 8 → Nat)
    (hd : rx_dispatch c hcan rx_header.StdId = none) :
    HAL_CAN_RxFifo0MsgPendingCallback c s hcan rx_header rx_data
      = some { state := s, slot := none, hooks := [] } := by
  unfold HAL_CAN_RxFifo0MsgPendingCallback
  rw [hd]

theorem get_motor_measure_fields (m : motor_measure_t) (d : Fin 8 → Nat)
    (hbytes : ∀ j, d j < 256) :
    (get_motor_measure m d).last_ecd = m.ecd ∧
    (get_motor_measure m d).ecd = 256 * d 0 + d 1 ∧
    (get_motor_measure m d).speed_rpm = twos_complement16 (256 * d 2 + d 3) ∧
    (get_motor_measure m d).given_current = twos_complement16 (256 * d 4 + d 5) ∧
    (get_motor_measure m d).temperate = d 6 := by
  have b0 := hbytes 0
  have b1 := hbytes 1
  have b2 := hbytes 2
  have b3 := hbytes 3
  have b4 := hbytes 4
  have b5 := hbytes 5
  refine ⟨rfl, ?_, ?_, ?_, rfl⟩
  · show be16 (d 0) (d 1) = _
    exact be16_eq _ _ b0 b1
  · show to_int16 (be16 (d 2) (d 3)) = _
    rw [be16_eq _ _ b2 b3]
    exact to_int16_eq_twos_complement16 _ (by omega)
  · show to_int16 (be16 (d 4) (d 5)) = _
    rw [be16_eq _ _ b4 b5]
    exact to_int16_eq_twos_complement16 _ (by omega)

theorem get_motor_measure_congr (m : motor_measure_t) (d d2 : Fin 8 → Nat)
    (h : ∀ j : Fin 8, j ≠ 7 → d2 j = d j) :
    get_motor_measure m d2 = get_motor_measure m d := by
  simp only [get_motor_measure]
  rw [h 0 (by decide), h 1 (by decide), h 2 (by decide), h 3 (by decide), h 4 (by decide),
    h 5 (by decide), h 6 (by decide)]

/-- C5. For a frame whose (bus, identifier) pair resolves to slot `k` of the
table and whose payload is eight bytes `d`, the receive callback leaves slot `k`
with `last_ecd` = the `ecd` it held before, `ecd = 256*d[0] + d[1]`, `speed_rpm`
and `given_current` the signed 16-bit readings of `256*d[2] + d[3]` and
`256*d[4] + d[5]`, `temperate = d[6]`; every other slot is unchanged and `d[7]`
has no influence on the outcome. -/
theorem callback_decodes_slot (c : can_consts) (s : can_state) (hcan : CAN_TypeDef)
    (rx_header : CAN_RxHeaderTypeDef) (rx_data : Fin 8 → Nat) (k : Fin 9)
    (hslot : rx_slot c hcan rx_header.StdId = some k.val)
    (hbytes : ∀ j, rx_data j < 256) :
    ∃ r : rx_outcome,
      HAL_CAN_RxFifo0MsgPendingCallback c s hcan rx_header rx_data = some r ∧
      r.slot = some k.val ∧
      (r.state.motor_chassis k).last_ecd = (s.motor_chassis k).ecd ∧
      (r.state.motor_chassis k).ecd = 256 * rx_data 0 + rx_data 1 ∧
      (r.state.motor_chassis k).speed_rpm = twos_complement16 (256 * rx_data 2 + rx_data 3) ∧
      (r.state.motor_chassis k).given_current
        = twos_complement16 (256 * rx_data 4 + rx_data 5) ∧
      (r.state.motor_chassis k).temperate = rx_data 6 ∧
      (∀ j : Fin 9, j ≠ k → r.state.motor_chassis j = s.motor_chassis j) ∧
      (∀ d2 : Fin 8 → Nat, (∀ j : Fin 8, j ≠ 7 → d2 j = rx_data j) →
        HAL_CAN_RxFifo0MsgPendingCallback c s hcan rx_header d2 = some r) := by
  obtain ⟨blk, hd, hi⟩ := rx_slot_eq_some c hcan rx_header.StdId k.val hslot
  obtain ⟨r, hr, hs, ht, hh⟩ := callback_of_dispatch c s hcan rx_header rx_data blk k hd hi
  obtain ⟨f1, f2, f3, f4, f5⟩ := get_motor_measure_fields (s.motor_chassis k) rx_data hbytes
  refine ⟨r, hr, hs, ?_, ?_, ?_, ?_, ?_, ?_, ?_⟩
  · rw [ht, Function.update_same]; exact f1
  · rw [ht, Function.update_same]; exact f2
  · rw [ht, Function.update_same]; exact f3
  · rw [ht, Function.update_same]; exact f4
  · rw [ht, Function.update_same]; exact f5
  · intro j hj
    rw [ht, Function.update_noteq hj]
  · intro d2 hd2
    rw [← hr]
    unfold HAL_CAN_RxFifo0MsgPendingCallback
    simp only [get_motor_measure_congr _ rx_data d2 hd2]

/-- Witness for C5: identifier `0x203` on `CAN1` resolves to slot 2. -/
theorem callback_decodes_slot_witness :
    rx_slot can_consts_sample .CAN1 (0x203) = some (2 : Fin 9).val ∧
    (∀ j, rx_data_sample j < 256) ∧
    ∃ r : rx_outcome,
      HAL_CAN_RxFifo0MsgPendingCallback can_consts_sample can_state_numbered .CAN1
        { StdId := 0x203, DLC := 8 } rx_data_sample = some r ∧
      r.slot = some (2 : Fin 9).val ∧
      (r.state.motor_chassis 2).last_ecd = (can_state_numbered.motor_chassis 2).ecd ∧
      (r.state.motor_chassis 2).ecd = 256 * rx_data_sample 0 + rx_data_sample 1 ∧
      (r.state.motor_chassis 2).speed_rpm
        = twos_complement16 (256 * rx_data_sample 2 + rx_data_sample 3) ∧
      (r.state.motor_chassis 2).given_current
        = twos_complement16 (256 * rx_data_sample 4 + rx_data_sample 5) ∧
      (r.state.motor_chassis 2).temperate = rx_data_sample 6 ∧
      (∀ j : Fin 9, j ≠ 2 → r.state.motor_chassis j = can_state_numbered.motor_chassis j) ∧
      (∀ d2 : Fin 8 → Nat, (∀ j : Fin 8, j ≠ 7 → d2 j = rx_data_sample j) →
        HAL_CAN_RxFifo0MsgPendingCallback can_consts_sample can_state_numbered .CAN1
          { StdId := 0x203, DLC := 8 } d2 = some r) :=
  ⟨by decide, by decide,
    callback_decodes_slot can_consts_sample can_state_numbered .CAN1
      { StdId := 0x203, DLC := 8 } rx_data_sample 2 (by decide) (by decide)⟩

theorem rx_index_of_offset (c : can_consts) (StdId : Nat) (h1 : c.CAN_3508_M1_ID ≤ StdId)
    (h2 : StdId ≤ c.CAN_3508_M1_ID + 6) :
    rx_index c .chassis StdId = StdId - c.CAN_3508_M1_ID ∧
    rx_index c .gimbal StdId = StdId - c.CAN_3508_M1_ID ∧
    rx_index c .fric StdId = StdId - c.CAN_3508_M1_ID + 7 := by
  simp only [rx_index, to_uint8, to_uint32]
  omega

theorem rx_slot_eq_slot_spec (c : can_consts) (hc : ids_consecutive c) (hcan : CAN_TypeDef)
    (StdId : Nat) : rx_slot c hcan StdId = slot_spec c hcan StdId := by
  obtain ⟨h2, h3, h4, h5, h6, h7, h8, h9⟩ := hc
  unfold rx_slot rx_dispatch slot_spec
  rw [h2, h3, h4, h5, h6, h7, h8, h9]
  cases hcan
  · by_cases h : c.CAN_3508_M1_ID ≤ StdId ∧ StdId ≤ c.CAN_3508_M1_ID + 3
    · have hl : StdId = c.CAN_3508_M1_ID ∨ StdId = c.CAN_3508_M1_ID + 1 ∨
          StdId = c.CAN_3508_M1_ID + 2 ∨ StdId = c.CAN_3508_M1_ID + 3 := by omega
      have hx := (rx_index_of_offset c StdId h.1 (by omega)).1
      simp [hl, h, hx]
    · have hl : ¬ (StdId = c.CAN_3508_M1_ID ∨ StdId = c.CAN_3508_M1_ID + 1 ∨
          StdId = c.CAN_3508_M1_ID + 2 ∨ StdId = c.CAN_3508_M1_ID + 3) := by omega
      simp [hl, h]
  · by_cases ha : c.CAN_3508_M1_ID ≤ StdId ∧ StdId ≤ c.CAN_3508_M1_ID + 1
    · have hl : StdId = c.CAN_3508_M1_ID ∨ StdId = c.CAN_3508_M1_ID + 1 := by omega
      have hn : ¬ (c.CAN_3508_M1_ID + 4 ≤ StdId ∧ StdId ≤ c.CAN_3508_M1_ID + 6) := by omega
      have hx := (rx_index_of_offset c StdId ha.1 (by omega)).2.2
      simp [hl, ha, hn, hx]
    · have hl : ¬ (StdId = c.CAN_3508_M1_ID ∨ StdId = c.CAN_3508_M1_ID + 1) := by omega
      by_cases hg : c.CAN_3508_M1_ID + 4 ≤ StdId ∧ StdId ≤ c.CAN_3508_M1_ID + 6
      · have hm : StdId = c.CAN_3508_M1_ID + 4 ∨ StdId = c.CAN_3508_M1_ID + 5 ∨
            StdId = c.CAN_3508_M1_ID + 6 := by omega
        have hx := (rx_index_of_offset c StdId (by omega) hg.2).2.1
        simp [hl, hm, hg, hx]
      · have hm : ¬ (StdId = c.CAN_3508_M1_ID + 4 ∨ StdId = c.CAN_3508_M1_ID + 5 ∨
            StdId = c.CAN_3508_M1_ID + 6) := by omega
        simp [hl, hm, hg, ha]
  · simp

theorem slot_spec_ranges (c : can_consts) (hcan : CAN_TypeDef) (StdId k : Nat)
    (h : slot_spec c hcan StdId = some k) :
    k < 9 ∧
    (k ≤ 3 ↔ hcan = .CAN1 ∧ c.CAN_3508_M1_ID ≤ StdId ∧ StdId ≤ c.CAN_3508_M1_ID + 3) ∧
    (4 ≤ k ∧ k ≤ 6 ↔
      hcan = .CAN2 ∧ c.CAN_3508_M1_ID + 4 ≤ StdId ∧ StdId ≤ c.CAN_3508_M1_ID + 6) ∧
    (7 ≤ k ∧ k ≤ 8 ↔
      hcan = .CAN2 ∧ c.CAN_3508_M1_ID ≤ StdId ∧ StdId ≤ c.CAN_3508_M1_ID + 1) := by
  unfold slot_spec at h
  split_ifs at h with h1 h2 h3
  · have hk := Option.some.inj h
    obtain ⟨e, _, _⟩ := h1
    subst e
    simp
    omega
  · have hk := Option.some.inj h
    obtain ⟨e, _, _⟩ := h2
    subst e
    simp
    omega
  · have hk := Option.some.inj h
    obtain ⟨e, _, _⟩ := h3
    subst e
    simp
    omega

theorem callback_total (c : can_consts) (s : can_state) (hcan : CAN_TypeDef)
    (rx_header : CAN_RxHeaderTypeDef) (rx_data : Fin 8 → Nat)
    (hin : ∀ k, rx_slot c hcan rx_header.StdId = some k → k < 9) :
    ∃ r : rx_outcome,
      HAL_CAN_RxFifo0MsgPendingCallback c s hcan rx_header rx_data = some r ∧
      r.slot = rx_slot c hcan rx_header.StdId ∧
      (∀ k : Fin 9, r.slot = some k.val →
        r.state.motor_chassis
          = Function.update s.motor_chassis k (get_motor_measure (s.motor_chassis k) rx_data)) ∧
      (r.slot = none → r.state = s ∧ r.hooks = []) := by
  cases hd : rx_dispatch c hcan rx_header.StdId with
  | none =>
    refine ⟨_, callback_of_no_dispatch c s hcan rx_header rx_data hd, ?_, ?_, ?_⟩
    · simp [rx_slot, hd]
    · intro k hk
      cases hk
    · intro _
      exact ⟨rfl, rfl⟩
  | some blk =>
    have hs : rx_slot c hcan rx_header.StdId = some (rx_index c blk rx_header.StdId) := by
      simp [rx_slot, hd]
    have hlt := hin _ hs
    obtain ⟨r, hr, h1, h2, _⟩ :=
      callback_of_dispatch c s hcan rx_header rx_data blk ⟨_, hlt⟩ hd rfl
    refine ⟨r, hr, ?_, ?_, ?_⟩
    · rw [h1, hs]
    · intro k hk
      rw [h1] at hk
      have hk2 : (⟨rx_index c blk rx_header.StdId, hlt⟩ : Fin 9) = k :=
        Fin.ext (Option.some.inj hk)
      rw [← hk2]
      exact h2
    · intro hn
      rw [h1] at hn
      cases hn

/-- C6. With consecutive identifier constants (`M2..M4 = M1+1..M1+3`,
yaw/pitch/trigger `= M1+4..M1+6`, auxiliary `= M1, M1+1`) the receive callback
always returns, and the slot it updates is `id - M1` in 0..3 exactly for the
drive identifiers on `CAN1`, `id - M1` in 4..6 exactly for yaw/pitch/trigger on
`CAN2`, `id - M1 + 7` in 7..8 exactly for the auxiliary identifiers on `CAN2`,
no slot otherwise; a resolved slot is always below 9 and is the one slot that
`get_motor_measure` rewrites. -/
theorem callback_slot_mapping (c : can_consts) (hc : ids_consecutive c) (s : can_state)
    (hcan : CAN_TypeDef) (rx_header : CAN_RxHeaderTypeDef) (rx_data : Fin 8 → Nat) :
    ∃ r : rx_outcome,
      HAL_CAN_RxFifo0MsgPendingCallback c s hcan rx_header rx_data = some r ∧
      r.slot = slot_spec c hcan rx_header.StdId ∧
      (∀ k : Nat, r.slot = some k →
        k < 9 ∧
        (k ≤ 3 ↔ hcan = .CAN1 ∧ c.CAN_3508_M1_ID ≤ rx_header.StdId
          ∧ rx_header.StdId ≤ c.CAN_3508_M1_ID + 3) ∧
        (4 ≤ k ∧ k ≤ 6 ↔ hcan = .CAN2 ∧ c.CAN_3508_M1_ID + 4 ≤ rx_header.StdId
          ∧ rx_header.StdId ≤ c.CAN_3508_M1_ID + 6) ∧
        (7 ≤ k ∧ k ≤ 8 ↔ hcan = .CAN2 ∧ c.CAN_3508_M1_ID ≤ rx_header.StdId
          ∧ rx_header.StdId ≤ c.CAN_3508_M1_ID + 1)) ∧
      (∀ k : Fin 9, r.slot = some k.val →
        r.state.motor_chassis
          = Function.update s.motor_chassis k (get_motor_measure (s.motor_chassis k) rx_data)) ∧
      (r.slot = none → r.state.motor_chassis = s.motor_chassis) := by
  have he := rx_slot_eq_slot_spec c hc hcan rx_header.StdId
  obtain ⟨r, hr, h1, h2, h3⟩ := callback_total c s hcan rx_header rx_data
    (fun k hk => (slot_spec_ranges c hcan rx_header.StdId k (he ▸ hk)).1)
  refine ⟨r, hr, h1.trans he, ?_, h2, ?_⟩
  · intro k hk
    exact slot_spec_ranges c hcan rx_header.StdId k ((h1.trans he) ▸ hk)
  · intro hn
    rw [(h3 hn).1]

/-- Witness for C6: the sample constants, identifier `0x202` on `CAN2` (slot 8). -/
theorem callback_slot_mapping_witness :
    ids_consecutive can_consts_sample ∧
    ∃ r : rx_outcome,
      HAL_CAN_RxFifo0MsgPendingCallback can_consts_sample can_state_numbered .CAN2
        { StdId := 0x202, DLC := 8 } rx_data_sample = some r ∧
      r.slot = some 8 :=
  ⟨by decide,
    (callback_slot_mapping can_consts_sample (by decide) can_state_numbered .CAN2
      { StdId := 0x202, DLC := 8 } rx_data_sample).imp
      fun _ h => ⟨h.1, h.2.1.trans (by decide)⟩⟩

theorem rx_dispatch_none_of_not_in_mapping (c : can_consts) (hcan : CAN_TypeDef) (StdId : Nat)
    (h : ¬ in_mapping c hcan StdId) : rx_dispatch c hcan StdId = none := by
  unfold in_mapping at h
  unfold rx_dispatch
  cases hcan
  · have h1 : ¬ (StdId = c.CAN_3508_M1_ID ∨ StdId = c.CAN_3508_M2_ID
        ∨ StdId = c.CAN_3508_M3_ID ∨ StdId = c.CAN_3508_M4_ID) :=
      fun hh => h (Or.inl ⟨rfl, hh⟩)
    simp only [if_neg h1]
  · have h1 : ¬ (StdId = c.CAN_3508_FRIC1_ID ∨ StdId = c.CAN_3508_FRIC2_ID) := by
      intro hh
      apply h
      right
      refine ⟨rfl, ?_⟩
      rcases hh with hh | hh
      · exact Or.inr (Or.inr (Or.inr (Or.inl hh)))
      · exact Or.inr (Or.inr (Or.inr (Or.inr hh)))
    have h2 : ¬ (StdId = c.CAN_YAW_MOTOR_ID ∨ StdId = c.CAN_PIT_MOTOR_ID
        ∨ StdId = c.CAN_TRIGGER_MOTOR_ID) := by
      intro hh
      apply h
      right
      refine ⟨rfl, ?_⟩
      rcases hh with hh | hh | hh
      · exact Or.inl hh
      · exact Or.inr (Or.inl hh)
      · exact Or.inr (Or.inr (Or.inl hh))
    simp only [if_neg h1, if_neg h2]
  · rfl

/-- C7. For a (bus, identifier) pair that is not in the mapping of its bus (any
identifier on a bus that is neither `CAN1` nor `CAN2` included) the receive
callback returns with the whole module state, hence all nine slots, unchanged,
hands no key to `detect_hook` and reports no slot. -/
theorem callback_ignores_unmapped (c : can_consts) (s : can_state) (hcan : CAN_TypeDef)
    (rx_header : CAN_RxHeaderTypeDef) (rx_data : Fin 8 → Nat)
    (h : ¬ in_mapping c hcan rx_header.StdId) :
    ∃ r : rx_outcome,
      HAL_CAN_RxFifo0MsgPendingCallback c s hcan rx_header rx_data = some r ∧
      r.state = s ∧
      (∀ j : Fin 9, r.state.motor_chassis j = s.motor_chassis j) ∧
      r.hooks = [] ∧
      r.slot = none :=
  ⟨_, callback_of_no_dispatch c s hcan rx_header rx_data
      (rx_dispatch_none_of_not_in_mapping c hcan rx_header.StdId h),
    rfl, fun _ => rfl, rfl, rfl⟩

/-- Witness for C7: drive identifier `0x203` arriving on `CAN2`. -/
theorem callback_ignores_unmapped_witness :
    ¬ in_mapping can_consts_sample .CAN2 (0x203) ∧
    ∃ r : rx_outcome,
      HAL_CAN_RxFifo0MsgPendingCallback can_consts_sample can_state_numbered .CAN2
        { StdId := 0x203, DLC := 8 } rx_data_sample = some r ∧
      r.state = can_state_numbered ∧
      (∀ j : Fin 9, r.state.motor_chassis j = can_state_numbered.motor_chassis j) ∧
      r.hooks = [] ∧
      r.slot = none :=
  ⟨by decide,
    callback_ignores_unmapped can_consts_sample can_state_numbered .CAN2
      { StdId := 0x203, DLC := 8 } rx_data_sample (by decide)⟩

/-- C8. For signed 16-bit `v0..v3`, the payload written by `CAN_cmd_chassis`,
by `CAN_cmd_gimbal` and by `CAN_cmd_fric` reads back, pair `(2k, 2k+1)` as a
big-endian two's-complement 16-bit integer, as `vk` for `k = 0..3`; the payload
handed to the HAL is the one left in the send buffer. -/
theorem group_encoders_round_trip (c : can_consts) (s : can_state) (v0 v1 v2 v3 : Int)
    (h0 : is_int16 v0) (h1 : is_int16 v1) (h2 : is_int16 v2) (h3 : is_int16 v3) :
    decode4 (CAN_cmd_chassis c s v0 v1 v2 v3).2.data = (v0, v1, v2, v3) ∧
    decode4 (CAN_cmd_gimbal c s v0 v1 v2 v3).2.data = (v0, v1, v2, v3) ∧
    decode4 (CAN_cmd_fric c s v0 v1 v2 v3).2.data = (v0, v1, v2, v3) ∧
    (CAN_cmd_chassis c s v0 v1 v2 v3).1.chassis_can_send_data
      = (CAN_cmd_chassis c s v0 v1 v2 v3).2.data ∧
    (CAN_cmd_gimbal c s v0 v1 v2 v3).1.gimbal_can_send_data
      = (CAN_cmd_gimbal c s v0 v1 v2 v3).2.data ∧
    (CAN_cmd_fric c s v0 v1 v2 v3).1.gimbal_can_send_data
      = (CAN_cmd_fric c s v0 v1 v2 v3).2.data :=
  ⟨decode4_store4 _ v0 v1 v2 v3 h0 h1 h2 h3, decode4_store4 _ v0 v1 v2 v3 h0 h1 h2 h3,
    decode4_store4 _ v0 v1 v2 v3 h0 h1 h2 h3, rfl, rfl, rfl⟩

/-- Witness for C8: the values `(100, -200, 16384, -16384)`. -/
theorem group_encoders_round_trip_witness :
    is_int16 100 ∧ is_int16 (-200) ∧ is_int16 16384 ∧ is_int16 (-16384) ∧
    decode4 (CAN_cmd_chassis can_consts_sample can_state_zero 100 (-200) 16384 (-16384)).2.data
      = (100, -200, 16384, -16384) ∧
    decode4 (CAN_cmd_gimbal can_consts_sample can_state_zero 100 (-200) 16384 (-16384)).2.data
      = (100, -200, 16384, -16384) ∧
    decode4 (CAN_cmd_fric can_consts_sample can_state_zero 100 (-200) 16384 (-16384)).2.data
      = (100, -200, 16384, -16384) :=
  have h := group_encoders_round_trip can_consts_sample can_state_zero 100 (-200) 16384 (-16384)
    (by decide) (by decide) (by decide) (by decide)
  ⟨by decide, by decide, by decide, by decide, h.1, h.2.1, h.2.2.1⟩

theorem get_chassis_motor_measure_point_eq_mod (i : Nat) :
    get_chassis_motor_measure_point i = i % 4 := by
  unfold get_chassis_motor_measure_point
  exact Nat.and_pow_two_sub_one_eq_mod i 2

/-- C9 as stated fails: called with index 9 the accessor returns slot 1, not slot
`9 mod 9 = 0`, and on a table whose slots differ the record it returns is not
the one returned for index 0. -/
theorem get_chassis_motor_measure_point_not_mod_nine :
    get_chassis_motor_measure_point 9 = 1 ∧
    get_chassis_motor_measure_point 9 ≠ 9 % 9 ∧
    motor_at can_state_numbered (get_chassis_motor_measure_point 9)
      ≠ motor_at can_state_numbered (get_chassis_motor_measure_point 0) := by
  decide

/-- C9, amended. For every index `i` the accessor returns the record at slot
`i mod 4` (the mask `i & 0x03`), always one of the four drive slots; called with
index 4 it returns the same record as with index 0, and with index 9 the same
record as with index 1. -/
theorem get_chassis_motor_measure_point_mod_four (s : can_state) (i : Nat) :
    get_chassis_motor_measure_point i = i % 4 ∧
    get_chassis_motor_measure_point i < 4 ∧
    (∃ h : i % 4 < 9,
      motor_at s (get_chassis_motor_measure_point i) = some (s.motor_chassis ⟨i % 4, h⟩)) ∧
    motor_at s (get_chassis_motor_measure_point 4)
      = motor_at s (get_chassis_motor_measure_point 0) ∧
    motor_at s (get_chassis_motor_measure_point 9)
      = motor_at s (get_chassis_motor_measure_point 1) := by
  have hm := get_chassis_motor_measure_point_eq_mod i
  have hlt : i % 4 < 9 := by omega
  refine ⟨hm, by omega, ⟨hlt, ?_⟩, rfl, rfl⟩
  rw [hm]
  unfold motor_at
  rw [dif_pos hlt]

/-- C10, the code at the failing input: after `CAN_cmd_fric2(258)` on the start-up
state, `CAN_cmd_fric1(-2)` sends `[0xFF, 0xFE, 0x01, 0x02, 0, 0, 0, 0]`; bytes 2
and 3 still carry the value of the earlier call. -/
theorem CAN_cmd_fric1_after_fric2_payload :
    (CAN_cmd_fric1 can_consts_sample
        (CAN_cmd_fric2 can_consts_sample can_state_zero 258).1 (-2)).2.data
      = ![0xFF, 0xFE, 0x01, 0x02, 0, 0, 0, 0] ∧
    (CAN_cmd_fric1 can_consts_sample
        (CAN_cmd_fric2 can_consts_sample can_state_zero 258).1 (-2)).2.data 3 ≠ 0 := by
  decide

/-! ## Properties of the single-channel encoders -/

theorem to_uint8_shift_eq_hi16 (v : Int) : to_uint8 (v >>> (8 : Nat)) = hi16 v := by
  have hs : v >>> (8 : Nat) = v / 256 := by
    rw [Int.shiftRight_eq_div_pow]
    norm_num
  rw [hs]
  unfold to_uint8 hi16 to_uint16
  omega

theorem to_uint8_eq_lo16 (v : Int) : to_uint8 v = lo16 v := by
  unfold to_uint8 lo16 to_uint16
  omega

/-- C11. For every `v` (in particular every signed 16-bit value) and every prior
module state, the payload `CAN_cmd_fric2(v)` hands to the HAL, which is also
what it leaves in the send buffer, is `[0, 0, hi(v), lo(v), 0, 0, 0, 0]`. -/
theorem CAN_cmd_fric2_payload (c : can_consts) (s : can_state) (v : Int) :
    (CAN_cmd_fric2 c s v).2.data = ![0, 0, hi16 v, lo16 v, 0, 0, 0, 0] ∧
    (CAN_cmd_fric2 c s v).1.fric_can_send_data = ![0, 0, hi16 v, lo16 v, 0, 0, 0, 0] := by
  have h : (CAN_cmd_fric2 c s v).2.data = ![0, 0, hi16 v, lo16 v, 0, 0, 0, 0] := by
    rw [← to_uint8_shift_eq_hi16, ← to_uint8_eq_lo16]
    funext j
    fin_cases j <;> rfl
  exact ⟨h, h⟩

/-- C12 as stated fails: with the sample constants the identifier in the header
of the `CAN_cmd_fric1` and `CAN_cmd_fric2` frames is the one `CAN_cmd_chassis`
uses. -/
theorem single_channel_id_equals_chassis_id :
    (CAN_cmd_fric1 can_consts_sample can_state_zero 1).2.header.StdId
      = (CAN_cmd_chassis can_consts_sample can_state_zero 1 1 1 1).2.header.StdId ∧
    (CAN_cmd_fric2 can_consts_sample can_state_zero 1).2.header.StdId
      = (CAN_cmd_chassis can_consts_sample can_state_zero 1 1 1 1).2.header.StdId := by
  decide

/-- C12, amended. For every value of the constants, the frames of
`CAN_cmd_fric1` and `CAN_cmd_fric2` carry `CAN_CHASSIS_ALL_ID`, the identifier
of the `CAN_cmd_chassis` frames (they go to the handle `GIMBAL_CAN`, the chassis
frames to `CHASSIS_CAN`); that identifier differs from the one of the
`CAN_cmd_gimbal` frames exactly when `CAN_CHASSIS_ALL_ID` and
`CAN_GIMBAL_ALL_ID` differ. -/
theorem single_channel_id_shared (c : can_consts) (s1 s2 s3 s4 : can_state)
    (v w m1 m2 m3 m4 y p sh r : Int) :
    (CAN_cmd_fric1 c s1 v).2.header.StdId = c.CAN_CHASSIS_ALL_ID ∧
    (CAN_cmd_fric2 c s2 w).2.header.StdId = c.CAN_CHASSIS_ALL_ID ∧
    (CAN_cmd_fric1 c s1 v).2.header.StdId
      = (CAN_cmd_chassis c s3 m1 m2 m3 m4).2.header.StdId ∧
    (CAN_cmd_fric2 c s2 w).2.header.StdId
      = (CAN_cmd_chassis c s3 m1 m2 m3 m4).2.header.StdId ∧
    ((CAN_cmd_fric1 c s1 v).2.header.StdId ≠ (CAN_cmd_gimbal c s4 y p sh r).2.header.StdId
      ↔ c.CAN_CHASSIS_ALL_ID ≠ c.CAN_GIMBAL_ALL_ID) ∧
    ((CAN_cmd_fric2 c s2 w).2.header.StdId ≠ (CAN_cmd_gimbal c s4 y p sh r).2.header.StdId
      ↔ c.CAN_CHASSIS_ALL_ID ≠ c.CAN_GIMBAL_ALL_ID) ∧
    (CAN_cmd_fric1 c s1 v).2.hcan = c.GIMBAL_CAN ∧
    (CAN_cmd_fric2 c s2 w).2.hcan = c.GIMBAL_CAN ∧
    (CAN_cmd_chassis c s3 m1 m2 m3 m4).2.hcan = c.CHASSIS_CAN :=
  ⟨rfl, rfl, rfl, rfl, Iff.rfl, Iff.rfl, rfl, rfl, rfl⟩

/-- C20. `CAN_cmd_fric1(w)` stores the two bytes of `w` at positions 0 and 1 of the
buffer it shares with `CAN_cmd_fric2` and sends positions 2..7 as they were;
called after `CAN_cmd_fric2(v)` it sends
`[hi(w), lo(w), hi(v), lo(v), 0, 0, 0, 0]`, the earlier value `v` included. -/
theorem CAN_cmd_fric1_sends_stale_bytes (c : can_consts) (s : can_state) (v w : Int) :
    (CAN_cmd_fric1 c s w).2.data 0 = hi16 w ∧
    (CAN_cmd_fric1 c s w).2.data 1 = lo16 w ∧
    (∀ j : Fin 8, 2 ≤ j.val → (CAN_cmd_fric1 c s w).2.data j = s.fric_can_send_data j) ∧
    (CAN_cmd_fric1 c (CAN_cmd_fric2 c s v).1 w).2.data
      = ![hi16 w, lo16 w, hi16 v, lo16 v, 0, 0, 0, 0] := by
  refine ⟨?_, ?_, ?_, ?_⟩
  · rw [← to_uint8_shift_eq_hi16]
    rfl
  · rw [← to_uint8_eq_lo16]
    rfl
  · intro j hj
    have h0 : j ≠ 0 := by
      intro h
      rw [h] at hj
      simp at hj
    have h1 : j ≠ 1 := by
      intro h
      rw [h] at hj
      simp at hj
    simp [CAN_cmd_fric1, Function.update, h0, h1]
  · rw [← to_uint8_shift_eq_hi16, ← to_uint8_eq_lo16, ← to_uint8_shift_eq_hi16,
      ← to_uint8_eq_lo16]
    funext j
    fin_cases j <;> rfl

/-! ## Further properties of the PID controller -/

section pid_state_theorems
variable {α : Type} [LinearOrderedRing α]

/-- C13. `PID_clear` sets `error[0..2]`, `Dbuf[0..2]`, `out`, `Pout`, `Iout`,
`Dout`, `set` and `fdb` to 0 and leaves `mode`, `Kp`, `Ki`, `Kd`, `max_out` and
`max_iout` as they were. -/
theorem PID_clear_effect (pid : pid_type_def α) :
    ∃ q : pid_type_def α,
      PID_clear (some pid) = some q ∧
      q.error0 = 0 ∧ q.error1 = 0 ∧ q.error2 = 0 ∧
      q.Dbuf0 = 0 ∧ q.Dbuf1 = 0 ∧ q.Dbuf2 = 0 ∧
      q.out = 0 ∧ q.Pout = 0 ∧ q.Iout = 0 ∧ q.Dout = 0 ∧
      q.set = 0 ∧ q.fdb = 0 ∧
      q.mode = pid.mode ∧ q.Kp = pid.Kp ∧ q.Ki = pid.Ki ∧ q.Kd = pid.Kd ∧
      q.max_out = pid.max_out ∧ q.max_iout = pid.max_iout :=
  ⟨_, rfl, rfl, rfl, rfl, rfl, rfl, rfl, rfl, rfl, rfl, rfl, rfl, rfl, rfl, rfl, rfl, rfl,
    rfl, rfl⟩

/-- C15. From a freshly initialised delta-mode controller, three successive
`PID_calc` calls with `(s1,f1)`, `(s2,f2)`, `(s3,f3)` leave
`error = [s3-f3, s2-f2, s1-f1]` and `Dbuf[0] = (s3-f3) - 2*(s2-f2) + (s1-f1)`.
The two mode enumerators are distinct. -/
theorem PID_calc_delta_three_calls (PID_POSITION PID_DELTA : Nat) (p0 : pid_type_def α)
    (kp ki kd max_out max_iout s1 f1 s2 f2 s3 f3 : α) (henum : PID_POSITION ≠ PID_DELTA) :
    ∃ q : pid_type_def α,
      PID_calc PID_POSITION PID_DELTA
        (PID_calc PID_POSITION PID_DELTA
          (PID_calc PID_POSITION PID_DELTA
            (PID_init (some p0) PID_DELTA (some (kp, ki, kd)) max_out max_iout) f1 s1).1
          f2 s2).1 f3 s3 = (some q, q.out) ∧
      q.error0 = s3 - f3 ∧ q.error1 = s2 - f2 ∧ q.error2 = s1 - f1 ∧
      q.Dbuf0 = (s3 - f3) - 2 * (s2 - f2) + (s1 - f1) := by
  have hne : ¬ PID_DELTA = PID_POSITION := fun h => henum h.symm
  refine ⟨_, rfl, ?_⟩
  simp only [PID_init, PID_calc, PID_calc_body, hne, if_true, if_false, and_self]

/-- Witness for C15: setpoints 10, 10, 10 and feedback 0, 5, 8 give the errors
10, 5, 2 and `Dbuf[0] = 2`. -/
theorem PID_calc_delta_three_calls_witness :
    (0 : Nat) ≠ 1 ∧
    ∃ q : pid_type_def ℚ,
      PID_calc 0 1 (PID_calc 0 1 (PID_calc 0 1
        (PID_init (some (pid_sample 0)) 1 (some (2, 1, 3)) 100 4) 0 10).1 5 10).1 8 10
        = (some q, q.out) ∧
      q.error0 = 2 ∧ q.error1 = 5 ∧ q.error2 = 10 ∧ q.Dbuf0 = 2 := by
  refine ⟨by decide, ?_⟩
  obtain ⟨q, h, e0, e1, e2, d0⟩ :=
    PID_calc_delta_three_calls 0 1 (pid_sample 0) (2 : ℚ) 1 3 100 4 10 0 10 5 10 8 (by decide)
  refine ⟨q, h, ?_, ?_, ?_, ?_⟩
  · rw [e0]; norm_num
  · rw [e1]; norm_num
  · rw [e2]; norm_num
  · rw [d0]; norm_num

/-- C18. `PID_init` stores whatever mode it is given, and for a state whose mode
is neither enumerator `PID_calc` shifts the error history, records `set` and
`fdb`, sets `error[0] = set - ref`, leaves `Pout`, `Iout`, `Dout`, `Dbuf`, `out`
and the configuration as they were, and returns the stored `out` as it was,
without clamping. -/
theorem PID_calc_unknown_mode (PID_POSITION PID_DELTA : Nat) (pid : pid_type_def α)
    (ref set : α) (hp : pid.mode ≠ PID_POSITION) (hd : pid.mode ≠ PID_DELTA) :
    (∀ (p0 : pid_type_def α) (kp ki kd mo mi : α), ∃ q0 : pid_type_def α,
      PID_init (some p0) pid.mode (some (kp, ki, kd)) mo mi = some q0 ∧ q0.mode = pid.mode) ∧
    ∃ q : pid_type_def α,
      PID_calc PID_POSITION PID_DELTA (some pid) ref set = (some q, pid.out) ∧
      q.error2 = pid.error1 ∧ q.error1 = pid.error0 ∧ q.error0 = set - ref ∧
      q.set = set ∧ q.fdb = ref ∧
      q.Pout = pid.Pout ∧ q.Iout = pid.Iout ∧ q.Dout = pid.Dout ∧
      q.Dbuf0 = pid.Dbuf0 ∧ q.Dbuf1 = pid.Dbuf1 ∧ q.Dbuf2 = pid.Dbuf2 ∧
      q.out = pid.out ∧
      q.mode = pid.mode ∧ q.Kp = pid.Kp ∧ q.Ki = pid.Ki ∧ q.Kd = pid.Kd ∧
      q.max_out = pid.max_out ∧ q.max_iout = pid.max_iout := by
  refine ⟨fun p0 kp ki kd mo mi => ⟨_, rfl, rfl⟩, ?_⟩
  have hb : PID_calc_body PID_POSITION PID_DELTA pid ref set
      = { pid with error2 := pid.error1, error1 := pid.error0, set := set, fdb := ref,
                   error0 := set - ref } := by
    simp only [PID_calc_body, hp, hd, if_false]
  refine ⟨PID_calc_body PID_POSITION PID_DELTA pid ref set, ?_, ?_⟩
  · simp only [PID_calc, hb]
  · rw [hb]
    exact ⟨rfl, rfl, rfl, rfl, rfl, rfl, rfl, rfl, rfl, rfl, rfl, rfl, rfl, rfl, rfl, rfl,
      rfl, rfl⟩

/-- Witness for C18: mode 7, stored `out = 50` above `max_out = 10`; the call
returns 50. -/
theorem PID_calc_unknown_mode_witness :
    ({ pid_sample 7 with out := 50 } : pid_type_def ℚ).mode ≠ 0 ∧
    ({ pid_sample 7 with out := 50 } : pid_type_def ℚ).mode ≠ 1 ∧
    ∃ q : pid_type_def ℚ,
      PID_calc 0 1 (some { pid_sample 7 with out := 50 }) 1 3 = (some q, 50) ∧
      q.error0 = 3 - 1 ∧ q.out = 50 ∧ q.max_out = 10 := by
  obtain ⟨_, q, hq, _, _, he, _, _, _, _, _, _, _, _, ho, _, _, _, _, hm, _⟩ :=
    PID_calc_unknown_mode 0 1 ({ pid_sample 7 with out := 50 } : pid_type_def ℚ) 1 3
      (by decide) (by decide)
  exact ⟨by decide, by decide, q, hq, he, ho, hm⟩

end pid_state_theorems

section pid_seq_theorems
variable {α : Type} [LinearOrderedRing α]

theorem PID_calc_body_mode (PID_POSITION PID_DELTA : Nat) (pid : pid_type_def α) (ref set : α) :
    (PID_calc_body PID_POSITION PID_DELTA pid ref set).mode = pid.mode := by
  unfold PID_calc_body
  simp only
  split_ifs <;> rfl

theorem PID_calc_body_delta_max_iout (PID_POSITION PID_DELTA : Nat) (pid : pid_type_def α)
    (m ref set : α) (henum : PID_POSITION ≠ PID_DELTA) (hmode : pid.mode = PID_DELTA) :
    PID_calc_body PID_POSITION PID_DELTA { pid with max_iout := m } ref set
      = { PID_calc_body PID_POSITION PID_DELTA pid ref set with max_iout := m } := by
  have hne : ¬ PID_DELTA = PID_POSITION := fun h => henum h.symm
  simp only [PID_calc_body, hmode, hne, if_true, if_false]

theorem PID_calc_seq_delta_max_iout (PID_POSITION PID_DELTA : Nat)
    (henum : PID_POSITION ≠ PID_DELTA) (m : α) (inputs : List (α × α)) :
    ∀ pid : pid_type_def α, pid.mode = PID_DELTA →
      PID_calc_seq PID_POSITION PID_DELTA (some { pid with max_iout := m }) inputs
        = (PID_calc_seq PID_POSITION PID_DELTA (some pid) inputs).map
            (fun r => (r.1.map (fun q => { q with max_iout := m }), r.2)) := by
  induction inputs with
  | nil => intro pid _; rfl
  | cons x rest ih =>
    intro pid hmode
    obtain ⟨ref, set⟩ := x
    have hb := PID_calc_body_delta_max_iout PID_POSITION PID_DELTA pid m ref set henum hmode
    have hm : (PID_calc_body PID_POSITION PID_DELTA pid ref set).mode = PID_DELTA :=
      (PID_calc_body_mode PID_POSITION PID_DELTA pid ref set).trans hmode
    have ih2 := ih (PID_calc_body PID_POSITION PID_DELTA pid ref set) hm
    simp only [PID_calc_seq, PID_calc, List.map_cons, Option.map_some', hb]
    rw [← ih2]

/-- C14, the code at the failing input: `PID_init` called on a controller that
was used before (last setpoint 3, last feedback 1) zeroes the history and the
terms but leaves `set = 3` and `fdb = 1`. -/
theorem PID_init_keeps_set_and_fdb :
    ∃ q : pid_type_def ℚ,
      PID_init (PID_calc 0 1 (some (pid_sample 0)) 1 3).1 0 (some (2, 1, 3)) 10 4 = some q ∧
      q.set = 3 ∧ q.fdb = 1 ∧ q.set ≠ 0 ∧ q.fdb ≠ 0 ∧
      q.error0 = 0 ∧ q.error1 = 0 ∧ q.error2 = 0 ∧ q.Dbuf0 = 0 ∧ q.Dbuf1 = 0 ∧ q.Dbuf2 = 0 ∧
      q.Pout = 0 ∧ q.Iout = 0 ∧ q.Dout = 0 ∧ q.out = 0 := by
  refine ⟨_, rfl, rfl, rfl, ?_, ?_, rfl, rfl, rfl, rfl, rfl, rfl, rfl, rfl, rfl, rfl⟩
  · show (3 : ℚ) ≠ 0
    norm_num
  · show (1 : ℚ) ≠ 0
    norm_num

/-- C19. In delta mode `max_iout` is never applied: for two states that differ
at most in `max_iout` and any common list of `(feedback, setpoint)` inputs, the
successive `PID_calc` calls return the same values and leave states equal in
every field other than `max_iout`; each call leaves `Iout = Ki*error[0]`
unclamped, so it exceeds `max_iout` in magnitude whenever `Ki*error[0]` does.
The two mode enumerators are distinct. -/
theorem PID_delta_ignores_max_iout (PID_POSITION PID_DELTA : Nat) (pid : pid_type_def α)
    (m : α) (inputs : List (α × α)) (henum : PID_POSITION ≠ PID_DELTA)
    (hmode : pid.mode = PID_DELTA) :
    PID_calc_seq PID_POSITION PID_DELTA (some { pid with max_iout := m }) inputs
      = (PID_calc_seq PID_POSITION PID_DELTA (some pid) inputs).map
          (fun r => (r.1.map (fun q => { q with max_iout := m }), r.2)) ∧
    ∀ ref set : α, ∃ q : pid_type_def α,
      (PID_calc PID_POSITION PID_DELTA (some pid) ref set).1 = some q ∧
      q.Iout = pid.Ki * (set - ref) ∧ q.max_iout = pid.max_iout ∧
      (pid.max_iout < |pid.Ki * (set - ref)| → q.max_iout < |q.Iout|) := by
  refine ⟨PID_calc_seq_delta_max_iout PID_POSITION PID_DELTA henum m inputs pid hmode, ?_⟩
  intro ref set
  have hne : ¬ PID_DELTA = PID_POSITION := fun h => henum h.symm
  have hI : (PID_calc_body PID_POSITION PID_DELTA pid ref set).Iout = pid.Ki * (set - ref) := by
    simp only [PID_calc_body, hmode, hne, if_true, if_false]
  have hM : (PID_calc_body PID_POSITION PID_DELTA pid ref set).max_iout = pid.max_iout := by
    simp only [PID_calc_body, hmode, hne, if_true, if_false]
  refine ⟨PID_calc_body PID_POSITION PID_DELTA pid ref set, rfl, hI, hM, ?_⟩
  intro h
  rw [hI, hM]
  exact h

/-- Witness for C19: `pid_sample 1` (`Ki = 1`, `max_iout = 4`) against the same
state with `max_iout = 0`, inputs `(1, 9)` and `(2, 3)`; the first call leaves
`Iout = 8`. -/
theorem PID_delta_ignores_max_iout_witness :
    (0 : Nat) ≠ 1 ∧ (pid_sample 1).mode = 1 ∧
    PID_calc_seq 0 1 (some { pid_sample 1 with max_iout := 0 }) [(1, 9), (2, 3)]
      = (PID_calc_seq 0 1 (some (pid_sample 1)) [(1, 9), (2, 3)]).map
          (fun r => (r.1.map (fun q => { q with max_iout := 0 }), r.2)) ∧
    ∃ q : pid_type_def ℚ,
      (PID_calc 0 1 (some (pid_sample 1)) 1 9).1 = some q ∧
      q.Iout = (pid_sample 1).Ki * (9 - 1) ∧ q.max_iout = (pid_sample 1).max_iout ∧
      ((pid_sample 1).max_iout < |(pid_sample 1).Ki * (9 - 1)| → q.max_iout < |q.Iout|) :=
  have h := PID_delta_ignores_max_iout 0 1 (pid_sample 1) (0 : ℚ) [(1, 9), (2, 3)]
    (by decide) rfl
  ⟨by decide, rfl, h.1, h.2 1 9⟩

end pid_seq_theorems

/-! ## Liveness notifications and payload length -/

theorem rx_dispatch_index_range (c : can_consts) (hc : ids_consecutive c) (hcan : CAN_TypeDef)
    (StdId : Nat) (blk : rx_case) (hd : rx_dispatch c hcan StdId = some blk) :
    (blk = .fric ∧ 7 ≤ rx_index c blk StdId ∧ rx_index c blk StdId ≤ 8) ∨
    (blk ≠ .fric ∧ rx_index c blk StdId ≤ 6) := by
  obtain ⟨h2, h3, h4, h5, h6, h7, h8, h9⟩ := hc
  unfold rx_dispatch at hd
  rw [h2, h3, h4, h5, h6, h7, h8, h9] at hd
  cases hcan
  · simp only at hd
    split_ifs at hd with h
    have hb : blk = .chassis := (Option.some.inj hd).symm
    subst hb
    have hx := (rx_index_of_offset c StdId (by omega) (by omega)).1
    right
    exact ⟨by decide, by omega⟩
  · simp only at hd
    split_ifs at hd with ha hg
    · have hb : blk = .fric := (Option.some.inj hd).symm
      subst hb
      have hx := (rx_index_of_offset c StdId (by omega) (by omega)).2.2
      left
      exact ⟨rfl, by omega, by omega⟩
    · have hb : blk = .gimbal := (Option.some.inj hd).symm
      subst hb
      have hx := (rx_index_of_offset c StdId (by omega) (by omega)).2.1
      right
      exact ⟨by decide, by omega⟩
  · cases hd

/-- C16. With the identifier layout of C6 (consecutive constants, auxiliary
identifiers `M1`, `M1 + 1`), the receive callback always returns; when the frame
resolves to a slot `k` in 0..6 the keys handed to `detect_hook` are exactly
`[CHASSIS_MOTOR1_TOE + k]`; when it resolves to slot 7 or 8 the slot is rewritten
by `get_motor_measure` and no key is handed to `detect_hook`. -/
theorem callback_liveness_hooks (c : can_consts) (hc : ids_consecutive c) (s : can_state)
    (hcan : CAN_TypeDef) (rx_header : CAN_RxHeaderTypeDef) (rx_data : Fin 8 → Nat) :
    ∃ r : rx_outcome,
      HAL_CAN_RxFifo0MsgPendingCallback c s hcan rx_header rx_data = some r ∧
      (∀ k : Nat, k ≤ 6 → r.slot = some k → r.hooks = [c.CHASSIS_MOTOR1_TOE + k]) ∧
      (∀ k : Fin 9, k.val = 7 ∨ k.val = 8 → r.slot = some k.val →
        r.hooks = [] ∧
        r.state.motor_chassis
          = Function.update s.motor_chassis k (get_motor_measure (s.motor_chassis k) rx_data)) := by
  cases hd : rx_dispatch c hcan rx_header.StdId with
  | none =>
    refine ⟨_, callback_of_no_dispatch c s hcan rx_header rx_data hd, ?_, ?_⟩
    · intro k _ hk
      cases hk
    · intro k _ hk
      cases hk
  | some blk =>
    have hr := rx_dispatch_index_range c hc hcan rx_header.StdId blk hd
    have hlt : rx_index c blk rx_header.StdId < 9 := by
      rcases hr with ⟨_, _, h⟩ | ⟨_, h⟩ <;> omega
    obtain ⟨r, hcall, hslot, htab, hhooks⟩ :=
      callback_of_dispatch c s hcan rx_header rx_data blk ⟨_, hlt⟩ hd rfl
    refine ⟨r, hcall, ?_, ?_⟩
    · intro k hk6 hk
      rw [hslot] at hk
      have hki : rx_index c blk rx_header.StdId = k := Option.some.inj hk
      rcases hr with ⟨_, h7, _⟩ | ⟨hnf, _⟩
      · omega
      · rw [hhooks, if_neg hnf]
        simp only [hki]
    · intro k hk78 hk
      rw [hslot] at hk
      have hki : rx_index c blk rx_header.StdId = k.val := Option.some.inj hk
      have hfin : (⟨rx_index c blk rx_header.StdId, hlt⟩ : Fin 9) = k := Fin.ext hki
      rcases hr with ⟨hf, _, _⟩ | ⟨_, h6⟩
      · rw [hhooks, if_pos hf, htab, hfin]
        exact ⟨rfl, rfl⟩
      · omega

/-- Witness for C16 on the sample constants: pitch identifier `0x206` on `CAN2`
(slot 5, key `CHASSIS_MOTOR1_TOE + 5`). -/
theorem callback_liveness_hooks_witness :
    ids_consecutive can_consts_sample ∧
    ∃ r : rx_outcome,
      HAL_CAN_RxFifo0MsgPendingCallback can_consts_sample can_state_numbered .CAN2
        { StdId := 0x206, DLC := 8 } rx_data_sample = some r ∧
      r.slot = some 5 ∧
      r.hooks = [can_consts_sample.CHASSIS_MOTOR1_TOE + 5] := by
  obtain ⟨r, hcall, h06, _⟩ :=
    callback_liveness_hooks can_consts_sample (by decide) can_state_numbered .CAN2
      { StdId := 0x206, DLC := 8 } rx_data_sample
  have hs : r.slot = some 5 := by
    have h : HAL_CAN_RxFifo0MsgPendingCallback can_consts_sample can_state_numbered .CAN2
        { StdId := 0x206, DLC := 8 } rx_data_sample
          = some { state := { can_state_numbered with
                      motor_chassis := Function.update can_state_numbered.motor_chassis 5
                        (get_motor_measure (can_state_numbered.motor_chassis 5) rx_data_sample) },
                   slot := some 5, hooks := [can_consts_sample.CHASSIS_MOTOR1_TOE + 5] } := rfl
    rw [h] at hcall
    rw [← Option.some.inj hcall]
  exact ⟨by decide, r, hcall, hs, h06 5 (by decide) hs⟩

/-- C17 as stated fails: a frame with a recognized identifier (`0x203` on `CAN1`)
and `DLC = 2` is decoded; slot 2 of the table is rewritten. -/
theorem callback_decodes_short_frame :
    ∃ r : rx_outcome,
      HAL_CAN_RxFifo0MsgPendingCallback can_consts_sample can_state_numbered .CAN1
        { StdId := 0x203, DLC := 2 } rx_data_sample = some r ∧
      r.slot = some 2 ∧
      r.state.motor_chassis 2 ≠ can_state_numbered.motor_chassis 2 :=
  ⟨_, rfl, rfl, by decide⟩

/-- C17, amended. The callback never examines the payload length: for a frame
whose identifier resolves to slot `k`, whatever its `DLC`, it returns the same
outcome as for `DLC = 8`, namely slot `k` rewritten by `get_motor_measure` from
the eight bytes of the receive buffer. -/
theorem callback_ignores_DLC (c : can_consts) (s : can_state) (hcan : CAN_TypeDef)
    (StdId dlc : Nat) (rx_data : Fin 8 → Nat) (k : Fin 9)
    (hslot : rx_slot c hcan StdId = some k.val) :
    ∃ r : rx_outcome,
      HAL_CAN_RxFifo0MsgPendingCallback c s hcan { StdId := StdId, DLC := dlc } rx_data
        = some r ∧
      HAL_CAN_RxFifo0MsgPendingCallback c s hcan { StdId := StdId, DLC := 8 } rx_data
        = some r ∧
      r.slot = some k.val ∧
      r.state.motor_chassis k = get_motor_measure (s.motor_chassis k) rx_data ∧
      ∀ j : Fin 9, j ≠ k → r.state.motor_chassis j = s.motor_chassis j := by
  obtain ⟨blk, hd, hi⟩ := rx_slot_eq_some c hcan StdId k.val hslot
  obtain ⟨r, hr, hs, ht, _⟩ :=
    callback_of_dispatch c s hcan { StdId := StdId, DLC := dlc } rx_data blk k hd hi
  refine ⟨r, hr, ?_, hs, ?_, ?_⟩
  · rw [← hr]
    rfl
  · rw [ht, Function.update_same]
  · intro j hj
    rw [ht, Function.update_noteq hj]

/-- Witness for C17: identifier `0x203` on `CAN1` (slot 2) with `DLC = 2`. -/
theorem callback_ignores_DLC_witness :
    rx_slot can_consts_sample .CAN1 (0x203) = some (2 : Fin 9).val ∧
    ∃ r : rx_outcome,
      HAL_CAN_RxFifo0MsgPendingCallback can_consts_sample can_state_numbered .CAN1
        { StdId := 0x203, DLC := 2 } rx_data_sample = some r ∧
      HAL_CAN_RxFifo0MsgPendingCallback can_consts_sample can_state_numbered .CAN1
        { StdId := 0x203, DLC := 8 } rx_data_sample = some r ∧
      r.slot = some (2 : Fin 9).val ∧
      r.state.motor_chassis 2
        = get_motor_measure (can_state_numbered.motor_chassis 2) rx_data_sample ∧
      ∀ j : Fin 9, j ≠ 2 → r.state.motor_chassis j = can_state_numbered.motor_chassis j :=
  ⟨by decide,
    callback_ignores_DLC can_consts_sample can_state_numbered .CAN1 (0x203) 2 rx_data_sample 2
      (by decide)⟩

end InfantryShoot
